import Mathlib

/-!
Verification development for the Dataproc cluster-inspection module
(`dataproc_utils.py`).  The module's Python strings are modelled as
`List Char`; its fallible operations return `PyResult` (normal value or
uncaught-exception/termination with a message).  Every definition below is a
direct shallow embedding of the corresponding Python function, except the
handful explicitly marked as modelled from the spec (helpers imported from
the sibling utilities module, whose source is not part of the analyzed code).
-/

set_option maxHeartbeats 1000000
set_option maxRecDepth 4000

/-- The character list of a string literal (a Python `str` value). -/
def chars (s : String) : List Char := s.data

/-- Outcome of running a piece of Python code: either a value, or a
propagating exception / process termination carrying a message. -/
inductive PyResult (α : Type) where
  | ok : α → PyResult α
  | exn : List Char → PyResult α
deriving DecidableEq

/-- Models Python `s.split(sep)` for a one-character separator: splits on
every occurrence of the separator, keeping empty pieces; the result is
always non-empty. -/
def pySplit (sep : Char) : List Char → List (List Char)
  | [] => [[]]
  | c :: rest =>
    if c = sep then [] :: pySplit sep rest
    else
      match pySplit sep rest with
      | [] => [[c]]
      | p :: ps => (c :: p) :: ps

/-- Models Python `s.splitlines()` for the line boundaries occurring in this
module's data (`\n`, `\r\n`, `\r`): no trailing empty line for a trailing
newline, and the empty string yields no lines. -/
def pySplitlines : List Char → List (List Char)
  | [] => []
  | '\r' :: '\n' :: rest => [] :: pySplitlines rest
  | '\n' :: rest => [] :: pySplitlines rest
  | '\r' :: rest => [] :: pySplitlines rest
  | c :: rest =>
    match pySplitlines rest with
    | [] => [[c]]
    | l :: ls => (c :: l) :: ls

/-- Models Python `s.upper()` (the device names involved are ASCII). -/
def pyUpper (s : List Char) : List Char := s.map Char.toUpper

/-- Models Python `s.lower()` (the machine-type families involved are ASCII). -/
def pyLower (s : List Char) : List Char := s.map Char.toLower

/-- Models Python `s.startswith(pre)`. -/
def pyStartswith (s pre : List Char) : Bool := pre.isPrefixOf s

/-- Models Python `s.find(sub)`: the smallest index at which `sub` occurs in
`s`, and `-1` when it does not occur. -/
def pyFind (s sub : List Char) : Int :=
  match (List.range (s.length + 1)).find? (fun i => sub.isPrefixOf (s.drop i)) with
  | some i => (i : Int)
  | none => -1

/-- Models Python's `\s` character class (ASCII whitespace). -/
def pyIsSpace (c : Char) : Bool :=
  c = ' ' || c = '\t' || c = '\n' || c = '\r' || c = '\x0b' || c = '\x0c'

/-- Numeric value of a list of decimal digits (most significant first). -/
def digitsToNat (ds : List Char) : Nat :=
  ds.foldl (fun acc c => acc * 10 + (c.toNat - '0'.toNat)) 0

/-- Strip leading and trailing Python whitespace. -/
def stripPyWs (s : List Char) : List Char :=
  ((s.dropWhile pyIsSpace).reverse.dropWhile pyIsSpace).reverse

/-- Models Python `int(s)` on the segments reachable here: surrounding
whitespace is stripped and an optional leading `+` accepted, then the
remainder must be one or more decimal digits.  (A `-` sign cannot occur in a
segment produced by splitting on `-`; underscore digit separators and
non-ASCII digits are not modelled.)  `none` models the `ValueError` raised
by Python. -/
def pyInt? (s : List Char) : Option Nat :=
  let t := stripPyWs s
  let u := match t with
    | '+' :: rest => rest
    | _ => t
  if u.isEmpty then none
  else if u.all Char.isDigit then some (digitsToNat u) else none

/-! ### GPU & machine compatibility rules (source lines 60-132) -/

/-- The supported-GPU enumeration, in the source's fixed order. -/
def supported_list : List (List Char) :=
  [chars ("T4"), chars ("V100"), chars ("K80"), chars ("A100"), chars ("P100")]

/-- Embedding of `parse_supported_gpu`: uppercase the input and return the
first entry of `supported_list` whose `find` in the normalized text is not
`-1`; `none` models Python's `None`. -/
def parse_supported_gpu (value : List Char) : Option (List Char) :=
  let normalized := pyUpper value
  supported_list.find? (fun gpu_device => pyFind normalized gpu_device != -1)

/-- Embedding of `is_machine_compatible_for_gpu`: the lower-cased machine
type must start with `n1-`. -/
def is_machine_compatible_for_gpu (machine_type : List Char) : Bool :=
  pyStartswith (pyLower machine_type) (chars ("n1-"))

/-- The source's `dataproc_n1_cores` ladder. -/
def dataproc_n1_cores : List Nat := [2, 4, 8, 16, 32, 64, 96]

/-- Embedding of the nested `get_core` helper: first ladder entry `≥ core`,
else the ladder's last entry. -/
def get_core (core : Nat) : Nat :=
  match dataproc_n1_cores.find? (fun c => decide (core ≤ c)) with
  | some c => c
  | none => dataproc_n1_cores.getLastD 0

/-- Decimal rendering of a number, as Python's string formatting produces. -/
def natToDigits (n : Nat) : List Char := chars (toString n)

/-- Embedding of `map_to_closest_supported_match`: split on `-`, parse the
last segment as the requested core count, rebuild
`n1-<second segment>-<selected core>`.  `none` models the `IndexError`
(fewer than two segments) or `ValueError` (unparsable count) that Python
would raise. -/
def map_to_closest_supported_match (machine_type : List Char) : Option (List Char) :=
  match (pySplit '-' machine_type)[1]?, (pySplit '-' machine_type).getLast?.bind pyInt? with
  | some tier, some core =>
    some (chars ("n1-") ++ tier ++ chars ("-") ++ natToDigits (get_core core))
  | _, _ => none

/-! ### The failure machinery (source lines 135-178 and call sites)

`CMDRunner.fail_action` is a nullable callback field (default `None`).
`_check_subprocess_result` guards the `None` case and calls the `bail`
fatal-error helper, while the property-container call sites invoke
`self.cli.fail_action(...)` directly, so with no handler installed those
sites crash with a `TypeError` (calling `None`); an installed handler
receives the error and either raises (terminating the run) or returns
(continuing).  We model the handler state plus its decision as a single
three-valued parameter. -/

/-- State of the `fail_action` field together with the installed handler's
decision: no handler installed (the default `None`), a handler that raises /
terminates, or a handler that returns control to the caller. -/
inductive FailAction where
  | noHandler : FailAction
  | raiseHandler : FailAction
  | continueHandler : FailAction
deriving DecidableEq

/-- The message Python produces when the absent (`None`) handler is called. -/
def noneNotCallable : List Char := chars ("TypeError: NoneType object is not callable")

/-- A direct call `self.cli.fail_action(err..)` at a property-container call
site: with no handler installed Python raises a `TypeError`; a raising
handler terminates with the error it received; a continuing handler returns. -/
def invokeFail (fa : FailAction) (errText : List Char) : PyResult Unit :=
  match fa with
  | .noHandler => .exn noneNotCallable
  | .raiseHandler => .exn errText
  | .continueHandler => .ok ()

/-- Modelled from the spec: `bail` from the sibling utilities module (not
part of the analyzed source) is the centralized fatal-error reporting path:
it logs the headline message plus the underlying cause and terminates the
process. -/
def bail (headline cause : List Char) : PyResult Unit :=
  .exn (headline ++ chars (": ") ++ cause)

/-- The inputs and outputs of one completed subprocess
(`subprocess.run(cmd, shell=True, ...)`), already decoded to text. -/
structure CompletedProcess where
  args : List Char
  returncode : Int
  stdout : List Char
  stderr : List Char

/-- The source's reformatting of captured standard error: every line
prefixed with a tab and a bar, the whole block preceded by a newline when
non-empty. -/
def format_stderr (stderr : List Char) : List Char :=
  let std_error_lines := (pySplitlines stderr).map (fun l => chars ("\t| ") ++ l)
  if std_error_lines.length = 0 then []
  else chars ("\n") ++ List.intercalate (chars ("\n")) std_error_lines

/-- Embedding of `CMDRunner._check_subprocess_result`: when the exit code
differs from the expected one, an error describing the command and its
reformatted stderr is built and routed to `bail` (no handler installed,
using the caller's failure message or a generic one) or to the installed
handler. -/
def check_subprocess_result (fa : FailAction) (c : CompletedProcess) (expected : Int)
    (msg_fail : Option (List Char)) : PyResult Unit :=
  if c.returncode = expected then .ok ()
  else
    let cmd_err_msg :=
      chars ("Error invoking CMD <") ++ c.args ++ chars (">: ") ++ format_stderr c.stderr
    match fa with
    | .noHandler =>
      match msg_fail with
      | some m => bail m cmd_err_msg
      | none => bail (chars ("Error invoking cmd")) cmd_err_msg
    | .raiseHandler => .exn cmd_err_msg
    | .continueHandler => .ok ()

/-- Embedding of `CMDRunner.run` given the completed child process: unless
`fail_ok` is set, the exit code is checked (possibly terminating); the
captured standard output text is returned.  The debug-logging branch only
writes to the logger and is not modelled. -/
def run (fa : FailAction) (c : CompletedProcess) (expected : Int) (fail_ok : Bool)
    (msg_fail : Option (List Char)) : PyResult (List Char) :=
  if fail_ok then .ok c.stdout
  else
    match check_subprocess_result fa c expected msg_fail with
    | .exn m => .exn m
    | .ok _ => .ok c.stdout

/-! ### Machine-type URI decoding (source lines 247-254) -/

/-- Python's `l[-4:]`: the last four elements (all of them when shorter). -/
def lastN (n : Nat) (l : List α) : List α := l.drop (l.length - n)

/-- The `IndexError` message for an out-of-range list subscript. -/
def indexError : List Char := chars ("IndexError: list index out of range")

/-- Embedding of `__decode_machine_type_uri`: take the last four
`/`-separated segments; if the first is not `zones` or the third is not
`machineTypes` (short-circuit, `IndexError` when the third is absent), the
error is handed to `fail_action`; execution then falls through and returns
segments two and four — so a continuing handler makes the method return
those segments even for a malformed URI. -/
def decode_machine_type_uri (fa : FailAction) (uri : List Char) :
    PyResult (List Char × List Char) :=
  let uri_parts := lastN 4 (pySplit '/' uri)
  let cond : PyResult Bool :=
    match uri_parts[0]? with
    | none => .exn indexError
    | some p0 =>
      if p0 ≠ chars ("zones") then .ok true
      else
        match uri_parts[2]? with
        | none => .exn indexError
        | some p2 => .ok (p2 ≠ chars ("machineTypes"))
  match cond with
  | .exn m => .exn m
  | .ok b =>
    match (if b then
        invokeFail fa (chars ("Unable to parse machine type from machine type URI: ") ++ uri)
      else .ok ()) with
    | .exn m => .exn m
    | .ok _ =>
      match uri_parts[1]?, uri_parts[3]? with
      | some zone_val, some machine_type_val => .ok (zone_val, machine_type_val)
      | _, _ => .exn indexError

/-! ### Worker GPU queries: the pure response-processing cores
(source lines 344-384) -/

/-- Embedding of the response-processing part of `get_worker_gpu_device`,
applied to the text returned by the remote `nvidia-smi --query-gpu=gpu_name`
command: an empty line list is handed to `fail_action`; then the loop body
runs at most once — it parses the FIRST line and returns inside the loop, so
later lines are never examined; a `None` parse is handed to `fail_action`
and, if the handler continues, Python returns the `None` parse result. -/
def get_worker_gpu_device_core (fa : FailAction) (gpu_devices : List Char) :
    PyResult (Option (List Char)) :=
  let all_lines := pySplitlines gpu_devices
  match (if all_lines.length = 0 then
      invokeFail fa (chars ("Unrecognized tesla device: ") ++ gpu_devices)
    else .ok ()) with
  | .exn m => .exn m
  | .ok _ =>
    match all_lines with
    | [] => .ok none
    | line :: _ =>
      match parse_supported_gpu line with
      | some gpu_device => .ok (some gpu_device)
      | none =>
        match invokeFail fa (chars ("Unrecognized tesla device: ") ++ line) with
        | .exn m => .exn m
        | .ok _ => .ok none

/-- One leftmost match of the pattern `(\d+)\s+(MiB)` anchored at the head
of `s`: a maximal non-empty digit run, a maximal non-empty whitespace run,
then the literal `MiB`; returns the numeric value of the digits and the
remainder after the match.  (Neither inner run needs regex backtracking:
no whitespace character is a digit and `M` is neither.) -/
def matchMiBAt (s : List Char) : Option (Nat × List Char) :=
  let digits := s.takeWhile Char.isDigit
  if digits.isEmpty then none
  else
    let r1 := s.dropWhile Char.isDigit
    if (r1.takeWhile pyIsSpace).isEmpty then none
    else
      let r2 := r1.dropWhile pyIsSpace
      if (chars ("MiB")).isPrefixOf r2 then some (digitsToNat digits, r2.drop 3)
      else none

/-- Scanning engine of `re.findall("(\d+)\s+(MiB)", text)`: try the pattern
at each position from left to right, consuming each non-overlapping match;
the fuel argument (initially the text length) only bounds the recursion and
never runs out, since every step consumes at least one character. -/
def findallMiBAux : Nat → List Char → List Nat
  | 0, _ => []
  | _, [] => []
  | fuel + 1, c :: tail =>
    match matchMiBAt (c :: tail) with
    | some (n, rest) => n :: findallMiBAux fuel rest
    | none => findallMiBAux fuel tail

/-- The values matched by `re.findall("(\d+)\s+(MiB)", text)`, in order. -/
def findallMiB (s : List Char) : List Nat := findallMiBAux s.length s

/-- Embedding of the response-processing part of `get_worker_gpu_info`,
applied to the text returned by the remote
`nvidia-smi --query-gpu=memory.total` command: the GPU count is the number
of pattern matches and the per-GPU memory the running maximum of the
matched values (`0` before the loop); zero matches is handed to
`fail_action` (continuing past it yields the pair `(0, 0)`). -/
def get_worker_gpu_info_core (fa : FailAction) (gpu_info : List Char) :
    PyResult (Nat × Nat) :=
  let match_arr := findallMiB gpu_info
  let num_gpus := match_arr.length
  match (if num_gpus = 0 then
      invokeFail fa (chars ("Unrecognized GPU memory output format: ") ++ gpu_info)
    else .ok ()) with
  | .exn m => .exn m
  | .ok _ => .ok (num_gpus, match_arr.foldl (fun gpu_mem mem_size => max mem_size gpu_mem) 0)

/-! ### Incompatibility criteria (source lines 76-111)

`get_incompatible_criteria(**criteria_container)` receives any subset of the
three named criteria; we model the keyword arguments as three `Option`bearing
fields and the returned dictionaries (whose possible keys are fixed) as
structures of `Option` fields. -/

/-- The keyword arguments of `get_incompatible_criteria`: each field is
`some` exactly when the criterion was passed. -/
structure Criteria where
  imageVersion : Option (List Char)
  machineType : Option (List Char)
  workerLocalSSDs : Option Int
deriving DecidableEq

/-- The `comments` sub-dictionary of the incompatibility report. -/
structure Comments where
  imageVersion : Option (List Char)
  machineType : Option (List Char)
  workerLocalSSDs : Option (List Char)
deriving DecidableEq

/-- The incompatibility report: a suggested replacement per violated
criterion, plus the `comments` sub-dictionary when any comment was added. -/
structure Report where
  imageVersion : Option (List Char)
  machineType : Option (List Char)
  workerLocalSSDs : Option Int
  comments : Option Comments
deriving DecidableEq

/-- The `imageVersion` block of `get_incompatible_criteria`: flagged (with
suggestion `2.0+` and a comment) iff the supplied version starts with `1.5`. -/
def iv_check (imageVersion : Option (List Char)) :
    Option (List Char) × Option (List Char) :=
  match imageVersion with
  | none => (none, none)
  | some image_ver =>
    if pyStartswith image_ver (chars ("1.5")) then
      (some (chars ("2.0+")),
       some (chars ("The cluster image ") ++ image_ver ++
         chars (" is not supported. To support the RAPIDS user tools, you will need to use an image that runs Spark3.x.")))
    else (none, none)

/-- The `machineType` block of `get_incompatible_criteria`: flagged (with the
converted type as suggestion and a comment) iff the supplied machine type is
not GPU-compatible; converting an incompatible machine type whose identifier
cannot be parsed raises, which the `.exn` branch models. -/
def mt_check (machineType : Option (List Char)) :
    PyResult (Option (List Char) × Option (List Char)) :=
  match machineType with
  | none => .ok (none, none)
  | some machine_type =>
    if is_machine_compatible_for_gpu machine_type then .ok (none, none)
    else
      match map_to_closest_supported_match machine_type with
      | none => .exn (chars ("ValueError: invalid core count in machine type"))
      | some converted_type =>
        .ok (some converted_type,
          some (chars ("To support acceleration with T4 GPUs, you will need to switch your worker node instance type <") ++
            machine_type ++ chars ("> to ") ++ converted_type ++ chars (".")))

/-- The `workerLocalSSDs` block of `get_incompatible_criteria`: flagged (with
suggestion `1` and a comment) iff the supplied count equals `0`. -/
def ssd_check (workerLocalSSDs : Option Int) :
    Option Int × Option (List Char) :=
  match workerLocalSSDs with
  | none => (none, none)
  | some local_ssds =>
    if local_ssds = 0 then
      (some 1,
       some (chars ("Worker nodes have no local SSDs. Local SSD is recommended for Spark scratch space to improve IO.")))
    else (none, none)

/-- Embedding of `get_incompatible_criteria`: apply the three per-criterion
blocks and attach the `comments` sub-dictionary when it is non-empty. -/
def get_incompatible_criteria (cc : Criteria) : PyResult Report :=
  let ivPair := iv_check cc.imageVersion
  match mt_check cc.machineType with
  | .exn m => .exn m
  | .ok mtPair =>
    let ssdPair := ssd_check cc.workerLocalSSDs
    let comments : Comments := ⟨ivPair.2, mtPair.2, ssdPair.2⟩
    let hasComments :=
      comments.imageVersion.isSome || comments.machineType.isSome ||
        comments.workerLocalSSDs.isSome
    .ok ⟨ivPair.1, mtPair.1, ssdPair.1, if hasComments then some comments else none⟩

/-! ### The shadow container's pre-processing (source lines 465-479) -/

/-- A YAML/JSON-style document: a scalar, or a mapping given as an ordered
association list (`dnil` empty, `dcons key value rest`). -/
inductive PyDoc where
  | leaf : List Char → PyDoc
  | dnil : PyDoc
  | dcons : List Char → PyDoc → PyDoc → PyDoc
deriving DecidableEq

/-- Python's `isinstance(value, dict)` on a document node. -/
def PyDoc.isDict : PyDoc → Bool
  | .leaf _ => false
  | .dnil => true
  | .dcons _ _ _ => true

/-- Mapping lookup on a document node (first binding of the key wins). -/
def dictGet : PyDoc → List Char → Option PyDoc
  | .dcons k v rest, key => if k = key then some v else dictGet rest key
  | _, _ => none

/-- Modelled from the spec: `convert_dict_to_camel_case` from the sibling
utilities module (not part of the analyzed source) recursively converts
every mapping key of the document to camel case; `to_camel_case` below is
its per-key conversion, joining the `_`-separated pieces with every piece
after the first capitalized. -/
def capitalizePiece : List Char → List Char
  | [] => []
  | c :: rest => c.toUpper :: rest

/-- Modelled from the spec: snake-case to camel-case conversion of one key
(see `capitalizePiece`). -/
def to_camel_case (k : List Char) : List Char :=
  match pySplit '_' k with
  | [] => []
  | p :: ps => p ++ (ps.map capitalizePiece).flatten

/-- Modelled from the spec: the recursive key conversion applied to a whole
document. -/
def convert_dict_to_camel_case : PyDoc → PyDoc
  | .leaf s => .leaf s
  | .dnil => .dnil
  | .dcons k v rest =>
    .dcons (to_camel_case k) (convert_dict_to_camel_case v) (convert_dict_to_camel_case rest)

/-- Embedding of the nested `_dfs_configuration` helper of
`DataprocShadowClusterPropContainer._process_loaded_props`: walk the
document's entries in order; a mapping-valued entry keyed `config` or
`clusterConfig` is returned re-rooted under the key `config`; other
mapping-valued entries are searched recursively; scalar entries are
skipped; `none` models Python's `None` when nothing matches. -/
def dfs_configuration : PyDoc → Option PyDoc
  | .dcons key value rest =>
    if value.isDict then
      if key = chars ("config") ∨ key = chars ("clusterConfig") then
        some (PyDoc.dcons (chars ("config")) value PyDoc.dnil)
      else
        match dfs_configuration value with
        | some returned => some returned
        | none => dfs_configuration rest
    else dfs_configuration rest
  | _ => none

/-- Embedding of `_process_loaded_props` for the shadow container: camel-case
all keys, then replace the whole document with the re-rooted configuration
sub-mapping (`none` models `self.props` becoming `None`). -/
def process_loaded_props (props : PyDoc) : Option PyDoc :=
  dfs_configuration (convert_dict_to_camel_case props)

/-- Whether the depth-first search can reach a mapping-valued entry keyed
`config` or `clusterConfig` (the claim's "sub-mapping at any depth"). -/
def hasConfigDict : PyDoc → Bool
  | .dcons key value rest =>
    (value.isDict &&
      (key = chars ("config") || key = chars ("clusterConfig"))) ||
    (value.isDict && hasConfigDict value) || hasConfigDict rest
  | _ => false


/-- The claim C3's reading of the GPU count, stated in the spec's words for
comparison with the code: the number of LINES of the response in which the
pattern `one or more digits, whitespace, "MiB"` matches. -/
def spec_lines_matching_count (t : List Char) : Nat :=
  ((pySplitlines t).filter (fun l => !(findallMiB l).isEmpty)).length

/-! ### Supporting lemmas about the string helpers -/

theorem pySplit_sep_not_mem (sep : Char) :
    ∀ s : List Char, ∀ p ∈ pySplit sep s, sep ∉ p := by
  intro s
  induction s with
  | nil =>
    intro p hp
    simp only [pySplit, List.mem_singleton] at hp
    subst hp
    exact List.not_mem_nil sep
  | cons c rest ih =>
    intro p hp
    by_cases hc : c = sep
    · rw [show pySplit sep (c :: rest) = [] :: pySplit sep rest by
        simp [pySplit, hc]] at hp
      rcases List.mem_cons.mp hp with hp | hp
      · subst hp; exact List.not_mem_nil sep
      · exact ih p hp
    · rcases hq : pySplit sep rest with _ | ⟨q, qs⟩
      · rw [show pySplit sep (c :: rest) = [[c]] by simp [pySplit, hc, hq]] at hp
        simp only [List.mem_singleton] at hp
        subst hp
        simp only [List.mem_singleton]
        exact fun h => hc h.symm
      · rw [show pySplit sep (c :: rest) = (c :: q) :: qs by
          simp [pySplit, hc, hq]] at hp
        rcases List.mem_cons.mp hp with hp | hp
        · subst hp
          intro hmem
          rcases List.mem_cons.mp hmem with h | h
          · exact hc h.symm
          · exact ih q (hq ▸ List.mem_cons_self q qs) h
        · exact ih p (hq ▸ List.mem_cons_of_mem q hp)

theorem pySplit_of_not_mem (sep : Char) (a : List Char) (ha : sep ∉ a) :
    pySplit sep a = [a] := by
  induction a with
  | nil => simp [pySplit]
  | cons c rest ih =>
    have hc : ¬ c = sep := fun h => ha (by simp [h])
    have hr : sep ∉ rest := fun h => ha (List.mem_cons_of_mem _ h)
    simp [pySplit, hc, ih hr]

theorem pySplit_append_sep (sep : Char) (a b : List Char) (ha : sep ∉ a) :
    pySplit sep (a ++ sep :: b) = a :: pySplit sep b := by
  induction a with
  | nil => simp [pySplit]
  | cons c rest ih =>
    have hc : ¬ c = sep := fun h => ha (by simp [h])
    have hr : sep ∉ rest := fun h => ha (List.mem_cons_of_mem _ h)
    simp [pySplit, hc, ih hr]

/-! ### Supporting lemmas about `get_core` -/

theorem get_core_eq (n : Nat) : get_core n =
    if n ≤ 2 then 2 else if n ≤ 4 then 4 else if n ≤ 8 then 8 else if n ≤ 16 then 16
    else if n ≤ 32 then 32 else if n ≤ 64 then 64 else 96 := by
  unfold get_core dataproc_n1_cores
  by_cases h2 : n ≤ 2 <;> by_cases h4 : n ≤ 4 <;> by_cases h8 : n ≤ 8 <;>
    by_cases h16 : n ≤ 16 <;> by_cases h32 : n ≤ 32 <;> by_cases h64 : n ≤ 64 <;>
    by_cases h96 : n ≤ 96 <;>
    first
      | (exfalso; omega)
      | simp [List.find?, h2, h4, h8, h16, h32, h64, h96]

theorem get_core_spec (n : Nat) :
    (get_core n ∈ dataproc_n1_cores ∧ n ≤ get_core n ∧
      ∀ d ∈ dataproc_n1_cores, n ≤ d → get_core n ≤ d) ∨
    (get_core n = 96 ∧ ∀ d ∈ dataproc_n1_cores, d < n) := by
  rw [get_core_eq]
  split_ifs with h2 h4 h8 h16 h32 h64 <;>
    [skip; skip; skip; skip; skip; skip;
     (by_cases h96 : n ≤ 96
      · left
        refine ⟨by decide, h96, ?_⟩
        intro d hd hnd
        simp only [dataproc_n1_cores] at hd
        fin_cases hd <;> omega
      · right
        refine ⟨rfl, ?_⟩
        intro d hd
        simp only [dataproc_n1_cores] at hd
        fin_cases hd <;> omega)] <;>
  · left
    refine ⟨by decide, by omega, ?_⟩
    intro d hd hnd
    simp only [dataproc_n1_cores] at hd
    fin_cases hd <;> omega

theorem get_core_mem (n : Nat) : get_core n ∈ dataproc_n1_cores := by
  rcases get_core_spec n with ⟨h, _⟩ | ⟨h, _⟩
  · exact h
  · rw [h]; decide

theorem isPrefixOf_append (a x : List Char) : a.isPrefixOf (a ++ x) = true := by
  induction a with
  | nil => simp [List.isPrefixOf]
  | cons c rest ih => simp [List.isPrefixOf, ih]

/-- Shared computation: on a three-segment identifier whose final segment
parses as `n`, the converter returns `n1-<tier>-<get_core n>`. -/
theorem map_eq_of_split (mt family tier count : List Char) (n : Nat)
    (h : pySplit '-' mt = [family, tier, count]) (hn : pyInt? count = some n) :
    map_to_closest_supported_match mt =
      some (chars ("n1-") ++ tier ++ chars ("-") ++ natToDigits (get_core n)) := by
  unfold map_to_closest_supported_match
  rw [h]
  have e1 : ([family, tier, count] : List (List Char))[1]? = some tier := rfl
  have e2 : ([family, tier, count] : List (List Char)).getLast? = some count := rfl
  rw [e1, e2]
  simp [hn]

/-- Shared computation: the converter's outputs are `n1-` machines and fixed
points of the converter. -/
theorem map_output_fixed (tier : List Char) (c : Nat) (htier : '-' ∉ tier)
    (hc : c ∈ dataproc_n1_cores) :
    map_to_closest_supported_match
        (chars ("n1-") ++ tier ++ chars ("-") ++ natToDigits c) =
      some (chars ("n1-") ++ tier ++ chars ("-") ++ natToDigits c) ∧
    is_machine_compatible_for_gpu
        (chars ("n1-") ++ tier ++ chars ("-") ++ natToDigits c) = true := by
  have hd1 : '-' ∉ natToDigits c := by
    simp only [dataproc_n1_cores] at hc
    fin_cases hc <;> decide
  have hd2 : pyInt? (natToDigits c) = some c := by
    simp only [dataproc_n1_cores] at hc
    fin_cases hc <;> decide
  have hd3 : get_core c = c := by
    simp only [dataproc_n1_cores] at hc
    fin_cases hc <;> decide
  have e : chars ("n1-") ++ tier ++ chars ("-") ++ natToDigits c =
      chars ("n1") ++ '-' :: (tier ++ '-' :: natToDigits c) := by
    simp [chars, List.append_assoc]
  have hsplit : pySplit '-' (chars ("n1-") ++ tier ++ chars ("-") ++ natToDigits c) =
      [chars ("n1"), tier, natToDigits c] := by
    rw [e, pySplit_append_sep _ _ _ (by decide), pySplit_append_sep _ _ _ htier,
      pySplit_of_not_mem _ _ hd1]
  constructor
  · unfold map_to_closest_supported_match
    rw [hsplit]
    have e1 : ([chars ("n1"), tier, natToDigits c])[1]? = some tier := rfl
    have e2 : ([chars ("n1"), tier, natToDigits c]).getLast? =
      some (natToDigits c) := rfl
    rw [e1, e2]
    simp [hd2, hd3]
  · unfold is_machine_compatible_for_gpu pyStartswith pyLower
    have hmap : (chars ("n1-")).map Char.toLower = chars ("n1-") := by decide
    simp only [List.map_append, hmap, List.append_assoc]
    exact isPrefixOf_append _ _

/-! ### Claim C1 -/

/-- Claim C1: for every machine-type identifier of the form
`<family>-<tier>-<count>` whose final segment parses as an integer,
`map_to_closest_supported_match` returns `n1-<tier>-<c>` where `c` is the
smallest ladder entry `≥` the requested count, or `96` when the requested
count exceeds every ladder entry; in particular `n2-highmem-128` maps to
`n1-highmem-96`, `n2-standard-6` to `n1-standard-8`, and `n2-standard-96`
to `n1-standard-96`. -/
theorem C1_map_to_closest_supported_match :
    (∀ mt family tier count : List Char, ∀ n : Nat,
      pySplit '-' mt = [family, tier, count] → pyInt? count = some n →
      ∃ c, map_to_closest_supported_match mt =
          some (chars ("n1-") ++ tier ++ chars ("-") ++ natToDigits c) ∧
        ((c ∈ dataproc_n1_cores ∧ n ≤ c ∧ ∀ d ∈ dataproc_n1_cores, n ≤ d → c ≤ d) ∨
         (c = 96 ∧ ∀ d ∈ dataproc_n1_cores, d < n))) ∧
    map_to_closest_supported_match (chars ("n2-highmem-128")) =
      some (chars ("n1-highmem-96")) ∧
    map_to_closest_supported_match (chars ("n2-standard-6")) =
      some (chars ("n1-standard-8")) ∧
    map_to_closest_supported_match (chars ("n2-standard-96")) =
      some (chars ("n1-standard-96")) := by
  refine ⟨?_, by decide, by decide, by decide⟩
  intro mt family tier count n h hn
  exact ⟨get_core n, map_eq_of_split mt family tier count n h hn, get_core_spec n⟩

/-- Witness for C1 at the concrete identifier `n2-standard-6`. -/
theorem C1_witness :
    ∃ c, map_to_closest_supported_match (chars ("n2-standard-6")) =
        some (chars ("n1-") ++ chars ("standard") ++ chars ("-") ++ natToDigits c) ∧
      ((c ∈ dataproc_n1_cores ∧ 6 ≤ c ∧ ∀ d ∈ dataproc_n1_cores, 6 ≤ d → c ≤ d) ∨
       (c = 96 ∧ ∀ d ∈ dataproc_n1_cores, d < 6)) :=
  C1_map_to_closest_supported_match.1 (chars ("n2-standard-6")) (chars ("n2"))
    (chars ("standard")) (chars ("6")) 6 (by decide) (by decide)

/-! ### Claim C10 -/

/-- Claim C10: on every machine-type identifier with exactly three
hyphen-separated segments whose last segment is a numeral, the converter's
output satisfies `is_machine_compatible_for_gpu` (it starts with `n1-`) and
the converter is idempotent: applied to its own output it returns that
output unchanged. -/
theorem C10_map_idempotent (mt family tier count : List Char) (n : Nat)
    (h : pySplit '-' mt = [family, tier, count]) (hn : pyInt? count = some n) :
    ∃ out, map_to_closest_supported_match mt = some out ∧
      is_machine_compatible_for_gpu out = true ∧
      map_to_closest_supported_match out = some out := by
  have htier : '-' ∉ tier := by
    refine pySplit_sep_not_mem '-' mt tier ?_
    rw [h]
    simp
  have hout := map_output_fixed tier (get_core n) htier (get_core_mem n)
  exact ⟨_, map_eq_of_split mt family tier count n h hn, hout.2, hout.1⟩

/-- Witness for C10 at the concrete identifier `e2-micro-4`. -/
theorem C10_witness :
    ∃ out, map_to_closest_supported_match (chars ("e2-micro-4")) = some out ∧
      is_machine_compatible_for_gpu out = true ∧
      map_to_closest_supported_match out = some out :=
  C10_map_idempotent (chars ("e2-micro-4")) (chars ("e2")) (chars ("micro"))
    (chars ("4")) 4 (by decide) (by decide)

/-! ### Claim C8 -/

theorem isPrefixOf_exists (a : List Char) :
    ∀ b : List Char, a.isPrefixOf b = true → ∃ u, b = a ++ u := by
  induction a with
  | nil => exact fun b _ => ⟨b, rfl⟩
  | cons c rest ih =>
    intro b h
    cases b with
    | nil => simp [List.isPrefixOf] at h
    | cons d bs =>
      simp only [List.isPrefixOf, Bool.and_eq_true, beq_iff_eq] at h
      obtain ⟨h1, h2⟩ := h
      obtain ⟨u, hu⟩ := ih bs h2
      exact ⟨u, by rw [h1, hu]; rfl⟩

/-- The source's substring test `s.find(sub) != -1` holds exactly when `sub`
occurs inside `s`. -/
theorem pyFind_ne_neg_one_iff (s sub : List Char) :
    (pyFind s sub != -1) = true ↔ sub <:+: s := by
  unfold pyFind
  rcases hf : (List.range (s.length + 1)).find?
      (fun i => sub.isPrefixOf (s.drop i)) with _ | i
  · constructor
    · intro h
      simp at h
    · intro hinf
      obtain ⟨t, u, htu⟩ := hinf
      rw [List.find?_eq_none] at hf
      exfalso
      refine hf t.length ?_ ?_
      · rw [List.mem_range]
        have : s.length = (t ++ sub ++ u).length := by rw [htu]
        simp only [List.length_append] at this
        omega
      · have hdrop : s.drop t.length = sub ++ u := by
          rw [← htu, List.append_assoc, List.drop_left]
        rw [hdrop]
        exact isPrefixOf_append sub u
  · simp only [bne_iff_ne, ne_eq]
    constructor
    · intro _
      have hp := List.find?_some hf
      obtain ⟨u, hu⟩ := isPrefixOf_exists sub (s.drop i) hp
      refine ⟨s.take i, u, ?_⟩
      rw [List.append_assoc, ← hu, List.take_append_drop]
    · intro _ h
      omega

/-- Boolean form of `pyFind_ne_neg_one_iff`. -/
theorem pyFind_bne_eq (s sub : List Char) :
    (pyFind s sub != -1) = decide (sub <:+: s) := by
  by_cases hinf : sub <:+: s
  · rw [decide_eq_true hinf]
    exact (pyFind_ne_neg_one_iff s sub).mpr hinf
  · rw [decide_eq_false hinf]
    cases hb : (pyFind s sub != -1) with
    | false => rfl
    | true => exact absurd ((pyFind_ne_neg_one_iff s sub).mp hb) hinf

/-- Claim C8: `parse_supported_gpu` uppercases its input and returns the
first member of the enumeration order `T4, V100, K80, A100, P100` that
occurs as a substring of the normalized text (so the match is
case-insensitive: `Tesla T4` yields `T4`, `NVIDIA A100-SXM4-40GB` yields
`A100`), and returns `none` when no member occurs. -/
theorem C8_parse_supported_gpu :
    (∀ v, parse_supported_gpu v =
      supported_list.find? (fun g => decide (g <:+: pyUpper v))) ∧
    parse_supported_gpu (chars ("Tesla T4")) = some (chars ("T4")) ∧
    parse_supported_gpu (chars ("NVIDIA A100-SXM4-40GB")) = some (chars ("A100")) ∧
    (∀ v, (∀ g ∈ supported_list, ¬ g <:+: pyUpper v) → parse_supported_gpu v = none) := by
  have hfun : ∀ v, parse_supported_gpu v =
      supported_list.find? (fun g => decide (g <:+: pyUpper v)) := by
    intro v
    simp only [parse_supported_gpu]
    congr 1
    funext g
    exact pyFind_bne_eq (pyUpper v) g
  refine ⟨hfun, by decide, by decide, ?_⟩
  intro v hnone
  rw [hfun v, List.find?_eq_none]
  intro g hg
  simp only [decide_eq_true_eq]
  exact hnone g hg

/-- Witness for C8 at a concrete device string containing none of the five
names. -/
theorem C8_witness : parse_supported_gpu (chars ("Radeon RX 580")) = none :=
  C8_parse_supported_gpu.2.2.2 (chars ("Radeon RX 580")) (by decide)

/-! ### Claim C6 -/

/-- Claim C6: for every command executed via `run` with failure tolerated
(`fail_ok = true`), an exit code different from the expected one does not
terminate the program: the exit code is ignored and `run` still returns the
captured standard output. -/
theorem C6_run_fail_ok (fa : FailAction) (c : CompletedProcess) (expected : Int)
    (msg_fail : Option (List Char)) (h : c.returncode ≠ expected) :
    run fa c expected true msg_fail = .ok c.stdout := by
  simp [run]

/-- Witness for C6 at a concrete failed command. -/
theorem C6_witness :
    run .noHandler (CompletedProcess.mk (chars ("gcloud info")) 1
        (chars ("partial output")) (chars ("boom"))) 0 true none =
      PyResult.ok (chars ("partial output")) :=
  C6_run_fail_ok .noHandler
    (CompletedProcess.mk (chars ("gcloud info")) 1 (chars ("partial output"))
      (chars ("boom"))) 0 none (by decide)

/-! ### Claim C7 -/

/-- Claim C7: a machine-type URI whose last four `/`-separated segments are
the literal `zones`, a zone value, the literal `machineTypes`, and a
machine-type value decodes to exactly that zone and machine type; and when
the third of those last four segments is not `machineTypes`, the decode is a
fatal error (no value is produced — default or raising failure handling). -/
theorem C7_decode_machine_type_uri (uri : List Char) (fa : FailAction) :
    (∀ z m : List Char,
      lastN 4 (pySplit '/' uri) = [chars ("zones"), z, chars ("machineTypes"), m] →
      decode_machine_type_uri fa uri = .ok (z, m)) ∧
    (fa ≠ .continueHandler →
      (lastN 4 (pySplit '/' uri))[2]? ≠ some (chars ("machineTypes")) →
      ∃ msg, decode_machine_type_uri fa uri = .exn msg) := by
  constructor
  · intro z m h
    simp [decode_machine_type_uri, h]
  · intro hfa h2
    rcases h0 : (lastN 4 (pySplit '/' uri))[0]? with _ | p0
    · exact ⟨indexError, by simp [decode_machine_type_uri, h0]⟩
    · by_cases hz : p0 = chars ("zones")
      · subst hz
        rcases hp2 : (lastN 4 (pySplit '/' uri))[2]? with _ | p2
        · exact ⟨indexError, by simp [decode_machine_type_uri, h0, hp2]⟩
        · have hne : ¬ p2 = chars ("machineTypes") := by
            intro he
            exact h2 (by rw [hp2, he])
          cases fa with
          | continueHandler => exact absurd rfl hfa
          | noHandler =>
            exact ⟨noneNotCallable,
              by simp [decode_machine_type_uri, h0, hp2, hne, invokeFail]⟩
          | raiseHandler =>
            exact ⟨chars ("Unable to parse machine type from machine type URI: ") ++ uri,
              by simp [decode_machine_type_uri, h0, hp2, hne, invokeFail]⟩
      · cases fa with
        | continueHandler => exact absurd rfl hfa
        | noHandler =>
          exact ⟨noneNotCallable, by simp [decode_machine_type_uri, h0, hz, invokeFail]⟩
        | raiseHandler =>
          exact ⟨chars ("Unable to parse machine type from machine type URI: ") ++ uri,
            by simp [decode_machine_type_uri, h0, hz, invokeFail]⟩

/-- Witness for C7 at a concrete good URI and a concrete URI whose third
segment from the end of the last four is not `machineTypes`. -/
theorem C7_witness :
    decode_machine_type_uri .noHandler
        (chars ("p/zones/us-central1-a/machineTypes/n1-standard-8")) =
      .ok (chars ("us-central1-a"), chars ("n1-standard-8")) ∧
    ∃ msg, decode_machine_type_uri .noHandler
        (chars ("p/zones/us-central1-a/machines/n1-standard-8")) = .exn msg :=
  ⟨(C7_decode_machine_type_uri
      (chars ("p/zones/us-central1-a/machineTypes/n1-standard-8")) .noHandler).1
      (chars ("us-central1-a")) (chars ("n1-standard-8")) (by decide),
   (C7_decode_machine_type_uri
      (chars ("p/zones/us-central1-a/machines/n1-standard-8")) .noHandler).2
      (by decide) (by decide)⟩

/-! ### Claim C5 -/

/-- Counterexample to claim C5 as stated: with an installed custom failure
handler that chooses to continue, decoding the machine-type URI `a/b/c/d` —
whose segments do not match the required layout — DOES return the partially
decoded zone/machine-type segments `b` and `d`, because the source falls
through after `fail_action` and returns them anyway. -/
theorem C5_counterexample :
    decode_machine_type_uri .continueHandler (chars ("a/b/c/d")) =
      .ok (chars ("b"), chars ("d")) ∧
    (lastN 4 (pySplit '/' (chars ("a/b/c/d"))))[0]? ≠ some (chars ("zones")) := by
  decide

/-- Claim C5 (amended): with no continuing failure handler installed, a
failing machine-type URI decode never returns a value — the error is routed
to the failure machinery (by default fatally, or to the installed handler,
even though this is a parsing error rather than an external-process
failure); however, when an installed handler chooses to continue, the
decode falls through and returns the raw second and fourth of the last four
segments, a partially decoded best-effort value. -/
theorem C5_no_partial_result (uri : List Char) (fa : FailAction) :
    (fa ≠ .continueHandler →
      ((lastN 4 (pySplit '/' uri))[0]? ≠ some (chars ("zones")) ∨
       (lastN 4 (pySplit '/' uri))[2]? ≠ some (chars ("machineTypes"))) →
      ∃ msg, decode_machine_type_uri fa uri = .exn msg) ∧
    (∀ p0 z p2 m : List Char,
      lastN 4 (pySplit '/' uri) = [p0, z, p2, m] →
      decode_machine_type_uri .continueHandler uri = .ok (z, m)) := by
  constructor
  · intro hfa hbad
    rcases h0 : (lastN 4 (pySplit '/' uri))[0]? with _ | p0
    · exact ⟨indexError, by simp [decode_machine_type_uri, h0]⟩
    · by_cases hz : p0 = chars ("zones")
      · subst hz
        have h2 : (lastN 4 (pySplit '/' uri))[2]? ≠ some (chars ("machineTypes")) := by
          rcases hbad with hbad | hbad
          · exact absurd h0 hbad
          · exact hbad
        rcases hp2 : (lastN 4 (pySplit '/' uri))[2]? with _ | p2
        · exact ⟨indexError, by simp [decode_machine_type_uri, h0, hp2]⟩
        · have hne : ¬ p2 = chars ("machineTypes") := by
            intro he
            exact h2 (by rw [hp2, he])
          cases fa with
          | continueHandler => exact absurd rfl hfa
          | noHandler =>
            exact ⟨noneNotCallable,
              by simp [decode_machine_type_uri, h0, hp2, hne, invokeFail]⟩
          | raiseHandler =>
            exact ⟨chars ("Unable to parse machine type from machine type URI: ") ++ uri,
              by simp [decode_machine_type_uri, h0, hp2, hne, invokeFail]⟩
      · cases fa with
        | continueHandler => exact absurd rfl hfa
        | noHandler =>
          exact ⟨noneNotCallable, by simp [decode_machine_type_uri, h0, hz, invokeFail]⟩
        | raiseHandler =>
          exact ⟨chars ("Unable to parse machine type from machine type URI: ") ++ uri,
            by simp [decode_machine_type_uri, h0, hz, invokeFail]⟩
  · intro p0 z p2 m h
    by_cases hz : p0 = chars ("zones") <;> by_cases hm : p2 = chars ("machineTypes") <;>
      simp [decode_machine_type_uri, h, hz, hm, invokeFail]

/-- Witness for C5 at a concrete malformed URI without a continuing handler
(no value escapes) and at a concrete four-segment URI with a continuing
handler (the raw segments escape). -/
theorem C5_witness :
    (∃ msg, decode_machine_type_uri .noHandler (chars ("x/y/z/w")) = .exn msg) ∧
    decode_machine_type_uri .continueHandler (chars ("q/r/s/t")) =
      .ok (chars ("r"), chars ("t")) :=
  ⟨(C5_no_partial_result (chars ("x/y/z/w")) .noHandler).1 (by decide) (by decide),
   (C5_no_partial_result (chars ("q/r/s/t")) .continueHandler).2
     (chars ("q")) (chars ("r")) (chars ("s")) (chars ("t")) (by decide)⟩

/-! ### Claim C4 -/

/-- Counterexample to claim C4 as stated: the response `Tesla T4\nbogus`
contains a returned line (`bogus`) that fails to match every known GPU
name, yet the operation is NOT a fatal error — it succeeds with `T4` —
because the source returns from inside the loop after examining only the
first line. -/
theorem C4_counterexample :
    get_worker_gpu_device_core .noHandler (chars ("Tesla T4\nbogus")) =
      .ok (some (chars ("T4"))) ∧
    (chars ("bogus")) ∈ pySplitlines (chars ("Tesla T4\nbogus")) ∧
    parse_supported_gpu (chars ("bogus")) = none := by
  decide

/-- Claim C4 (amended): `get_worker_gpu_device` parses only the FIRST line
of the remote GPU-name query's response: producing no output at all is a
fatal error; a first line that fails to match one of the five known GPU
names is a fatal error identifying that line (when no continuing handler is
installed); and when the first line matches, its recognized device name is
returned — later lines are never examined. -/
theorem C4_get_worker_gpu_device (fa : FailAction) (t : List Char)
    (hfa : fa ≠ .continueHandler) :
    (pySplitlines t = [] → ∃ m, get_worker_gpu_device_core fa t = .exn m) ∧
    (∀ l ls, pySplitlines t = l :: ls →
      (parse_supported_gpu l = none →
        ∃ m, get_worker_gpu_device_core fa t = .exn m ∧
          (fa = .raiseHandler → m = chars ("Unrecognized tesla device: ") ++ l)) ∧
      (∀ g, parse_supported_gpu l = some g →
        get_worker_gpu_device_core fa t = .ok (some g))) := by
  constructor
  · intro h
    cases fa with
    | continueHandler => exact absurd rfl hfa
    | noHandler =>
      exact ⟨noneNotCallable, by simp [get_worker_gpu_device_core, h, invokeFail]⟩
    | raiseHandler =>
      exact ⟨chars ("Unrecognized tesla device: ") ++ t,
        by simp [get_worker_gpu_device_core, h, invokeFail]⟩
  · intro l ls h
    constructor
    · intro hp
      cases fa with
      | continueHandler => exact absurd rfl hfa
      | noHandler =>
        refine ⟨noneNotCallable, ?_, ?_⟩
        · simp [get_worker_gpu_device_core, h, hp, invokeFail]
        · intro hh
          cases hh
      | raiseHandler =>
        refine ⟨chars ("Unrecognized tesla device: ") ++ l, ?_, fun _ => rfl⟩
        simp [get_worker_gpu_device_core, h, hp, invokeFail]
    · intro g hg
      simp [get_worker_gpu_device_core, h, hg]

/-- Witness for C4: a one-line recognized response returns its device and a
one-line unrecognized response raises with the offending line. -/
theorem C4_witness :
    get_worker_gpu_device_core .raiseHandler (chars ("Tesla T4")) =
      .ok (some (chars ("T4"))) ∧
    (∃ m, get_worker_gpu_device_core .raiseHandler (chars ("junk device")) = .exn m ∧
      (FailAction.raiseHandler = .raiseHandler →
        m = chars ("Unrecognized tesla device: ") ++ chars ("junk device"))) :=
  ⟨((C4_get_worker_gpu_device .raiseHandler (chars ("Tesla T4")) (by decide)).2
      (chars ("Tesla T4")) [] (by decide)).2 (chars ("T4")) (by decide),
   ((C4_get_worker_gpu_device .raiseHandler (chars ("junk device")) (by decide)).2
      (chars ("junk device")) [] (by decide)).1 (by decide)⟩

/-! ### Claim C3 -/

theorem foldl_max_spec (ms : List Nat) :
    ∀ a : Nat, (ms.foldl (fun gpu_mem mem_size => max mem_size gpu_mem) a ∈ a :: ms) ∧
      a ≤ ms.foldl (fun gpu_mem mem_size => max mem_size gpu_mem) a ∧
      ∀ v ∈ ms, v ≤ ms.foldl (fun gpu_mem mem_size => max mem_size gpu_mem) a := by
  induction ms with
  | nil =>
    intro a
    exact ⟨List.mem_singleton.mpr rfl, le_refl a, by simp⟩
  | cons m ms ih =>
    intro a
    obtain ⟨h1, h2, h3⟩ := ih (max m a)
    refine ⟨?_, ?_, ?_⟩
    · simp only [List.foldl_cons]
      rcases List.mem_cons.mp h1 with h | h
      · rcases max_choice m a with hm | hm
        · rw [h, hm]
          exact List.mem_cons_of_mem a (List.mem_cons_self m ms)
        · rw [h, hm]
          exact List.mem_cons_self a (m :: ms)
      · exact List.mem_cons_of_mem a (List.mem_cons_of_mem m h)
    · simp only [List.foldl_cons]
      exact le_trans (Nat.le_max_right m a) h2
    · simp only [List.foldl_cons]
      intro v hv
      rcases List.mem_cons.mp hv with h | h
      · rw [h]
        exact le_trans (Nat.le_max_left m a) h2
      · exact h3 v h

/-- Counterexample to claim C3 as stated: on the single-line response
`1 MiB 2 MiB` the code reports a GPU count of `2` (the number of pattern
matches), while the number of lines matching the pattern is `1`. -/
theorem C3_counterexample :
    get_worker_gpu_info_core .noHandler (chars ("1 MiB 2 MiB")) = .ok (2, 2) ∧
    spec_lines_matching_count (chars ("1 MiB 2 MiB")) = 1 := by
  decide

/-- Claim C3 (amended): `get_worker_gpu_info` reports a GPU count equal to
the number of non-overlapping matches of the pattern `one or more digits,
whitespace, "MiB"` across the whole response (one line can contribute
several matches), and a per-GPU memory equal to the maximum among the
matched readings; a response with zero matches is a fatal error whose
`ValueError` carries the offending raw text (when no continuing handler is
installed). -/
theorem C3_get_worker_gpu_info (fa : FailAction) (t : List Char) :
    (findallMiB t ≠ [] →
      ∃ mem, get_worker_gpu_info_core fa t = .ok ((findallMiB t).length, mem) ∧
        mem ∈ findallMiB t ∧ ∀ v ∈ findallMiB t, v ≤ mem) ∧
    (findallMiB t = [] → fa ≠ .continueHandler →
      ∃ m, get_worker_gpu_info_core fa t = .exn m ∧
        (fa = .raiseHandler →
          m = chars ("Unrecognized GPU memory output format: ") ++ t)) := by
  constructor
  · intro hne
    obtain ⟨h1, _, h3⟩ := foldl_max_spec (findallMiB t) 0
    have hlen : ¬ (findallMiB t).length = 0 := by
      intro hh
      exact hne (List.length_eq_zero.mp hh)
    refine ⟨(findallMiB t).foldl (fun gpu_mem mem_size => max mem_size gpu_mem) 0,
      by simp [get_worker_gpu_info_core, hlen], ?_, h3⟩
    rcases List.mem_cons.mp h1 with h | h
    · obtain ⟨m0, ms, hms⟩ := List.exists_cons_of_ne_nil hne
      have hm0 : m0 ∈ findallMiB t := by
        rw [hms]
        exact List.mem_cons_self m0 ms
      have hle : m0 ≤ 0 := h ▸ h3 m0 hm0
      have hz : m0 = 0 := Nat.le_zero.mp hle
      rw [h]
      exact hz ▸ hm0
    · exact h
  · intro heq hfa
    cases fa with
    | continueHandler => exact absurd rfl hfa
    | noHandler =>
      refine ⟨noneNotCallable, ?_, ?_⟩
      · simp [get_worker_gpu_info_core, heq, invokeFail]
      · intro hh
        cases hh
    | raiseHandler =>
      exact ⟨chars ("Unrecognized GPU memory output format: ") ++ t,
        by simp [get_worker_gpu_info_core, heq, invokeFail], fun _ => rfl⟩

/-- Witness for C3: the documented two-reading response plus a warning line,
and a zero-match response under a raising handler. -/
theorem C3_witness :
    (∃ mem, get_worker_gpu_info_core .noHandler
        (chars ("15109 MiB\n15109 MiB\nWarning: x")) =
        .ok ((findallMiB (chars ("15109 MiB\n15109 MiB\nWarning: x"))).length, mem) ∧
      mem ∈ findallMiB (chars ("15109 MiB\n15109 MiB\nWarning: x")) ∧
      ∀ v ∈ findallMiB (chars ("15109 MiB\n15109 MiB\nWarning: x")), v ≤ mem) ∧
    (∃ m, get_worker_gpu_info_core .raiseHandler (chars ("no driver")) = .exn m ∧
      (FailAction.raiseHandler = .raiseHandler →
        m = chars ("Unrecognized GPU memory output format: ") ++ chars ("no driver"))) :=
  ⟨(C3_get_worker_gpu_info .noHandler (chars ("15109 MiB\n15109 MiB\nWarning: x"))).1
      (by decide),
   (C3_get_worker_gpu_info .raiseHandler (chars ("no driver"))).2 (by decide) (by decide)⟩

/-! ### Claim C2 -/

theorem iv_check_spec (iv : Option (List Char)) :
    ((iv_check iv).1.isSome ↔
      ∃ v, iv = some v ∧ pyStartswith v (chars ("1.5")) = true) ∧
    ((iv_check iv).1.isSome → (iv_check iv).1 = some (chars ("2.0+"))) ∧
    ((iv_check iv).2.isSome ↔ (iv_check iv).1.isSome) := by
  rcases iv with _ | v
  · simp [iv_check]
  · by_cases hv : pyStartswith v (chars ("1.5")) = true
    · simp [iv_check, hv]
    · simp [iv_check, hv]

theorem mt_check_spec (mt : Option (List Char))
    (p : Option (List Char) × Option (List Char)) (h : mt_check mt = .ok p) :
    (p.1.isSome ↔ ∃ m, mt = some m ∧ is_machine_compatible_for_gpu m = false) ∧
    (∀ m, mt = some m → is_machine_compatible_for_gpu m = false →
      p.1 = map_to_closest_supported_match m) ∧
    (p.2.isSome ↔ p.1.isSome) := by
  rcases mt with _ | m
  · simp only [mt_check, PyResult.ok.injEq] at h
    subst h
    simp
  · by_cases hc : is_machine_compatible_for_gpu m
    · simp only [mt_check, if_pos hc, PyResult.ok.injEq] at h
      subst h
      simp [hc]
    · rcases hmap : map_to_closest_supported_match m with _ | conv
      · simp [mt_check, hc, hmap] at h
      · simp only [mt_check, if_neg hc, hmap, PyResult.ok.injEq] at h
        subst h
        refine ⟨?_, ?_, by simp⟩
        · simp only [Option.isSome_some, true_iff]
          exact ⟨m, rfl, by simp [hc]⟩
        · intro m' hm' _
          cases hm'
          simp [hmap]

theorem ssd_check_spec (ssd : Option Int) :
    ((ssd_check ssd).1.isSome ↔ ssd = some 0) ∧
    ((ssd_check ssd).1.isSome → (ssd_check ssd).1 = some 1) ∧
    ((ssd_check ssd).2.isSome ↔ (ssd_check ssd).1.isSome) := by
  rcases ssd with _ | s
  · simp [ssd_check]
  · by_cases hs : s = 0
    · simp [ssd_check, hs]
    · simp [ssd_check, hs]

/-- Claim C2: for every call to `get_incompatible_criteria` (any subset of
the three criteria supplied) that returns a report: the `imageVersion` entry
(suggestion `2.0+`) is present iff the supplied version starts with `1.5`;
the `machineType` entry (suggestion `map_to_closest_supported_match` of the
input) is present iff the supplied machine type does not start,
case-insensitively, with `n1-`; the `workerLocalSSDs` entry (suggestion `1`)
is present iff the supplied count is `0`; every violated criterion carries a
comment; and the report is empty when every supplied criterion passes. -/
theorem C2_get_incompatible_criteria (cc : Criteria) (r : Report)
    (h : get_incompatible_criteria cc = .ok r) :
    (r.imageVersion.isSome ↔
      ∃ v, cc.imageVersion = some v ∧ pyStartswith v (chars ("1.5")) = true) ∧
    (r.imageVersion.isSome → r.imageVersion = some (chars ("2.0+"))) ∧
    (r.machineType.isSome ↔
      ∃ m, cc.machineType = some m ∧ is_machine_compatible_for_gpu m = false) ∧
    (∀ m, cc.machineType = some m → is_machine_compatible_for_gpu m = false →
      r.machineType = map_to_closest_supported_match m) ∧
    (r.workerLocalSSDs.isSome ↔ cc.workerLocalSSDs = some 0) ∧
    (r.workerLocalSSDs.isSome → r.workerLocalSSDs = some 1) ∧
    (r.comments.isSome ↔
      (r.imageVersion.isSome ∨ r.machineType.isSome ∨ r.workerLocalSSDs.isSome)) ∧
    (∀ cms, r.comments = some cms →
      (cms.imageVersion.isSome ↔ r.imageVersion.isSome) ∧
      (cms.machineType.isSome ↔ r.machineType.isSome) ∧
      (cms.workerLocalSSDs.isSome ↔ r.workerLocalSSDs.isSome)) ∧
    ((∀ v, cc.imageVersion = some v → pyStartswith v (chars ("1.5")) = false) →
     (∀ m, cc.machineType = some m → is_machine_compatible_for_gpu m = true) →
     (∀ s : Int, cc.workerLocalSSDs = some s → ¬ s = 0) →
      r = Report.mk none none none none) := by
  cases hmt : mt_check cc.machineType with
  | exn m => simp [get_incompatible_criteria, hmt] at h
  | ok mtPair =>
    simp only [get_incompatible_criteria, hmt, PyResult.ok.injEq] at h
    subst h
    obtain ⟨hiv1, hiv2, hiv3⟩ := iv_check_spec cc.imageVersion
    obtain ⟨hmt1, hmt2, hmt3⟩ := mt_check_spec cc.machineType mtPair hmt
    obtain ⟨hs1, hs2, hs3⟩ := ssd_check_spec cc.workerLocalSSDs
    refine ⟨hiv1, hiv2, hmt1, hmt2, hs1, hs2, ?_, ?_, ?_⟩
    · show (if _ then some _ else none : Option Comments).isSome ↔ _
      split_ifs with hcond
      · simp only [Option.isSome_some, true_iff]
        simp only [Bool.or_eq_true] at hcond
        rcases hcond with (hx | hx) | hx
        · exact Or.inl (hiv3.mp hx)
        · exact Or.inr (Or.inl (hmt3.mp hx))
        · exact Or.inr (Or.inr (hs3.mp hx))
      · simp only [Option.isSome_none, Bool.false_eq_true, false_iff]
        intro hor
        rcases hor with hx | hx | hx
        · exact hcond (by simp [hiv3.mpr hx])
        · exact hcond (by simp [hmt3.mpr hx])
        · exact hcond (by simp [hs3.mpr hx])
    · intro cms hcms
      show _ ∧ _ ∧ _
      split_ifs at hcms with hcond
      simp only [Option.some.injEq] at hcms
      subst hcms
      exact ⟨hiv3, hmt3, hs3⟩
    · intro hp1 hp2 hp3
      have e1 : (iv_check cc.imageVersion).1 = none := by
        rcases he : (iv_check cc.imageVersion).1 with _ | x
        · rfl
        · exfalso
          obtain ⟨v, hv, hpre⟩ := hiv1.mp (by simp [he])
          rw [hp1 v hv] at hpre
          cases hpre
      have e2 : mtPair.1 = none := by
        rcases he : mtPair.1 with _ | x
        · rfl
        · exfalso
          obtain ⟨m, hm, hcomp⟩ := hmt1.mp (by simp [he])
          rw [hp2 m hm] at hcomp
          cases hcomp
      have e3 : (ssd_check cc.workerLocalSSDs).1 = none := by
        rcases he : (ssd_check cc.workerLocalSSDs).1 with _ | x
        · rfl
        · exact absurd (hs1.mp (by simp [he])) (fun hh => hp3 0 hh rfl)
      have c1 : (iv_check cc.imageVersion).2 = none := by
        rcases he : (iv_check cc.imageVersion).2 with _ | x
        · rfl
        · exfalso
          have := hiv3.mp (by simp [he])
          rw [e1] at this
          simp at this
      have c2 : mtPair.2 = none := by
        rcases he : mtPair.2 with _ | x
        · rfl
        · exfalso
          have := hmt3.mp (by simp [he])
          rw [e2] at this
          simp at this
      have c3 : (ssd_check cc.workerLocalSSDs).2 = none := by
        rcases he : (ssd_check cc.workerLocalSSDs).2 with _ | x
        · rfl
        · exfalso
          have := hs3.mp (by simp [he])
          rw [e3] at this
          simp at this
      rw [Report.mk.injEq]
      refine ⟨e1, e2, e3, ?_⟩
      rw [c1, c2, c3]
      simp

/-- Witness for C2: with only `workerLocalSSDs = 0` supplied, the report
flags that criterion. -/
theorem C2_witness :
    ((Report.mk none none (some 1)
        (some (Comments.mk none none
          (some (chars ("Worker nodes have no local SSDs. Local SSD is recommended for Spark scratch space to improve IO.")))))).workerLocalSSDs.isSome ↔
      (Criteria.mk none none (some 0)).workerLocalSSDs = some 0) :=
  (C2_get_incompatible_criteria (Criteria.mk none none (some 0))
    (Report.mk none none (some 1)
      (some (Comments.mk none none
        (some (chars ("Worker nodes have no local SSDs. Local SSD is recommended for Spark scratch space to improve IO."))))))
    (by decide)).2.2.2.2.1

/-! ### Claim C9 -/

theorem dfs_none (d : PyDoc) : hasConfigDict d = false → dfs_configuration d = none := by
  induction d with
  | leaf s => intro _; simp [dfs_configuration]
  | dnil => intro _; simp [dfs_configuration]
  | dcons k v rest ihv ihrest =>
    intro h
    simp only [hasConfigDict] at h
    have hrest : hasConfigDict rest = false := by
      cases hb : hasConfigDict rest with
      | false => rfl
      | true => rw [hb] at h; simp at h
    by_cases hd : v.isDict
    · have hk : ¬ (k = chars ("config") ∨ k = chars ("clusterConfig")) := by
        intro hkk
        rcases hkk with hkk | hkk <;> (rw [hkk, hd] at h; simp at h)
      have hv : hasConfigDict v = false := by
        cases hb : hasConfigDict v with
        | false => rfl
        | true => rw [hb, hd] at h; simp at h
      simp [dfs_configuration, hd, hk, ihv hv, ihrest hrest]
    · simp [dfs_configuration, hd, ihrest hrest]

theorem dfs_some (d : PyDoc) : hasConfigDict d = true →
    ∃ sub : PyDoc, dfs_configuration d = some (PyDoc.dcons (chars ("config")) sub PyDoc.dnil) ∧
      sub.isDict = true := by
  induction d with
  | leaf s => intro h; simp [hasConfigDict] at h
  | dnil => intro h; simp [hasConfigDict] at h
  | dcons k v rest ihv ihrest =>
    intro h
    by_cases hd : v.isDict
    · by_cases hk : k = chars ("config") ∨ k = chars ("clusterConfig")
      · exact ⟨v, by simp [dfs_configuration, hd, hk], hd⟩
      · by_cases hv : hasConfigDict v = true
        · obtain ⟨sub, hsub, hsubd⟩ := ihv hv
          exact ⟨sub, by simp [dfs_configuration, hd, hk, hsub], hsubd⟩
        · have hvf : hasConfigDict v = false := by
            cases hb : hasConfigDict v with
            | false => rfl
            | true => exact absurd hb hv
          have hrest : hasConfigDict rest = true := by
            simp only [hasConfigDict, Bool.or_eq_true, Bool.and_eq_true,
              decide_eq_true_eq] at h
            rcases h with (⟨_, hkk⟩ | ⟨_, hbb⟩) | hx
            · exact absurd hkk hk
            · exact absurd hbb hv
            · exact hx
          obtain ⟨sub, hsub, hsubd⟩ := ihrest hrest
          exact ⟨sub, by simp [dfs_configuration, hd, hk, dfs_none v hvf, hsub], hsubd⟩
    · have hrest : hasConfigDict rest = true := by
        simp only [hasConfigDict, Bool.or_eq_true, Bool.and_eq_true,
          decide_eq_true_eq] at h
        rcases h with (⟨hdd, _⟩ | ⟨hdd, _⟩) | hx
        · exact absurd hdd hd
        · exact absurd hdd hd
        · exact hx
      obtain ⟨sub, hsub, hsubd⟩ := ihrest hrest
      exact ⟨sub, by simp [dfs_configuration, hd, hsub], hsubd⟩

/-- Claim C9: the shadow container's pre-processing camel-cases every key
and re-roots the document at the first mapping-valued entry keyed `config`
or `clusterConfig` found by depth-first search, stored under the key
`config` with everything outside it discarded — so whenever the camel-cased
document contains such a sub-mapping at any depth, the processed document
has exactly the shape `{config: <sub-mapping>}` and a lookup of `config`
succeeds; when no such sub-mapping exists anywhere, the processed document
is `None` and no later lookup can succeed. -/
theorem C9_process_loaded_props (props : PyDoc) :
    (hasConfigDict (convert_dict_to_camel_case props) = true →
      ∃ sub, process_loaded_props props =
          some (PyDoc.dcons (chars ("config")) sub PyDoc.dnil) ∧
        sub.isDict = true ∧
        dictGet (PyDoc.dcons (chars ("config")) sub PyDoc.dnil) (chars ("config")) =
          some sub) ∧
    (hasConfigDict (convert_dict_to_camel_case props) = false →
      process_loaded_props props = none) := by
  constructor
  · intro h
    obtain ⟨sub, hsub, hd⟩ := dfs_some (convert_dict_to_camel_case props) h
    exact ⟨sub, hsub, hd, by simp [dictGet]⟩
  · intro h
    exact dfs_none (convert_dict_to_camel_case props) h

/-- Witness for C9: a document whose configuration is nested under the
snake-case key `cluster_config` (camel-cased to `clusterConfig`) is
re-rooted, and a document with no configuration sub-mapping anywhere is
left unusable (`None`). -/
theorem C9_witness :
    (∃ sub, process_loaded_props
        (PyDoc.dcons (chars ("cluster")) (PyDoc.dcons (chars ("cluster_config"))
          (PyDoc.dcons (chars ("x")) (PyDoc.leaf (chars ("y"))) PyDoc.dnil) PyDoc.dnil)
          PyDoc.dnil) =
        some (PyDoc.dcons (chars ("config")) sub PyDoc.dnil) ∧
      sub.isDict = true ∧
      dictGet (PyDoc.dcons (chars ("config")) sub PyDoc.dnil) (chars ("config")) =
        some sub) ∧
    process_loaded_props
        (PyDoc.dcons (chars ("a")) (PyDoc.leaf (chars ("b"))) PyDoc.dnil) = none :=
  ⟨(C9_process_loaded_props
      (PyDoc.dcons (chars ("cluster")) (PyDoc.dcons (chars ("cluster_config"))
        (PyDoc.dcons (chars ("x")) (PyDoc.leaf (chars ("y"))) PyDoc.dnil) PyDoc.dnil)
        PyDoc.dnil)).1 (by decide),
   (C9_process_loaded_props
      (PyDoc.dcons (chars ("a")) (PyDoc.leaf (chars ("b"))) PyDoc.dnil)).2 (by decide)⟩
